import Mathlib

/-!
Verification of the sleep-stage reconstruction layer of pylifesnaps
(src/pylifesnaps/loader.py, src/pylifesnaps/utils.py) against its
natural-language specification.

Timestamps are modelled as integer seconds since an arbitrary epoch
(the source manipulates pandas datetimes at whole-second granularity in
this algorithm: every offset it adds is a whole number of seconds).
Sleep stages are the enum values "deep", "light", "rem", "wake" from
constants.py.  A pandas cell that may be NaN is modelled as an Option.
A raised pandas/Python exception is modelled as an Except.error.
-/

/-- Sleep stage enum: the four stage values of
constants.py (_DB_FITBIT_COLLECTION_SLEEP_DATA_STAGE_*_VALUE). -/
inductive Stage
  | deep
  | light
  | rem
  | wake
deriving DecidableEq, Repr

/-- One element of the coarse levels.data array of a sleep document:
keys dateTime, level, seconds. -/
structure DataEntry where
  dateTime : Int
  level : Stage
  seconds : Int
deriving DecidableEq, Repr

/-- One element of the levels.shortData array.  The level field is kept
to show the merge ignores it (the source only reads dateTime and
seconds of a short-data entry and always writes stage wake). -/
structure ShortDataEntry where
  dateTime : Int
  level : Option Stage
  seconds : Int
deriving DecidableEq, Repr

/-- The levels sub-document of a sleep entry: a data array and an
optional shortData array (shortData = none models an absent key). -/
structure SleepLevels where
  data : List DataEntry
  shortData : Option (List ShortDataEntry)
deriving DecidableEq, Repr

/-- The fields of one sleep document that the loaders read. -/
structure SleepEntry where
  logId : Int
  dateOfSleep : Int
  startTime : Int
  levels : SleepLevels
deriving DecidableEq, Repr

/-- One row of the DataFrame returned by
_merge_sleep_data_and_sleep_short_data: columns dateTime, level,
seconds.  level is an Option because grid buckets that precede every
coarse sample stay NaN after the forward fill. -/
structure SleepRow where
  dateTime : Int
  level : Option Stage
  seconds : Int
deriving DecidableEq, Repr

/-- The Python/pandas exceptions the modelled code can raise. -/
inductive PandasError
  | keyError
  | indexError
  | valueError
  | typeError
deriving DecidableEq, Repr

/-- The rows of the DataFrame built from the raw levels.data array
(loader.py line 333 and lines 521-527): one row per coarse event. -/
def rawSleepRows (data : List DataEntry) : List SleepRow :=
  data.map (fun e => ⟨e.dateTime, some e.level, e.seconds⟩)

/-- Normalization of one shortData entry (loader.py lines 370-391): an
entry longer than 30 seconds becomes int(seconds / 30) consecutive
30-second wake sub-entries; otherwise the entry is kept at its own
start time with its own duration, with level forced to wake. -/
def normalizeShortEntry (e : ShortDataEntry) : List ShortDataEntry :=
  if 30 < e.seconds then
    (List.range (e.seconds.toNat / 30)).map
      (fun (i : Nat) => ⟨e.dateTime + 30 * (i : Int), some Stage.wake, 30⟩)
  else
    [⟨e.dateTime, some Stage.wake, e.seconds⟩]

/-- The full normalized shortData list (loader.py lines 369-391,
sleep_short_data_list_copy). -/
def normalizeShortData (l : List ShortDataEntry) : List ShortDataEntry :=
  l.flatMap normalizeShortEntry

/-- Level of the coarse event whose dateTime equals t exactly, if any.
This models the index-aligned assignment at loader.py lines 422-424:
a grid label receives a coarse level only on an exact timestamp match. -/
def coarseLevelAt (data : List DataEntry) (t : Int) : Option Stage :=
  (data.find? (fun e => e.dateTime == t)).map (·.level)

/-- The uniform 30-second grid index (loader.py lines 415-420):
min + i * 30 for i in range(n). -/
def gridTimes (t0 : Int) (n : Nat) : List Int :=
  (List.range n).map (fun (i : Nat) => t0 + 30 * (i : Int))

/-- Pandas ffill on the level column (loader.py line 425): a NaN cell
inherits the most recent non-NaN value above it; leading NaNs stay NaN. -/
def ffillLevels (carry : Option Stage) :
    List (Int × Option Stage) → List (Int × Option Stage)
  | [] => []
  | (t, some s) :: rest => (t, some s) :: ffillLevels (some s) rest
  | (t, none) :: rest => (t, carry) :: ffillLevels carry rest

/-- Injection of the short data (loader.py lines 429-431): every grid
label that appears in the normalized shortData index gets level wake
(the normalized entries all carry level wake). -/
def overlayShort (shortTimes : List Int) (g : List (Int × Option Stage)) :
    List (Int × Option Stage) :=
  g.map (fun p => if p.1 ∈ shortTimes then (p.1, some Stage.wake) else p)

/-- Run-length coalescing of the grid (loader.py lines 433-458): rows
where the factorized level changes are kept, and each kept row's
seconds is (last grid label of its run) + 30 - (first grid label of
its run).  startT/lvl are the pending run's first label and level,
lastT the last label seen so far. -/
def rleAux (startT : Int) (lvl : Option Stage) (lastT : Int) :
    List (Int × Option Stage) → List SleepRow
  | [] => [⟨startT, lvl, lastT + 30 - startT⟩]
  | (t, l) :: rest =>
    if l = lvl then rleAux startT lvl t rest
    else ⟨startT, lvl, lastT + 30 - startT⟩ :: rleAux t l t rest

/-- Run-length coalescing of the whole grid. -/
def rleGrid : List (Int × Option Stage) → List SleepRow
  | [] => []
  | (t, l) :: rest => rleAux t l t rest

/-- sleep_start_dt (loader.py line 361): dateTime of the first coarse
event.  The default is never reached on the paths that use it. -/
def coarseStart (data : List DataEntry) : Int :=
  ((data.head?).map (·.dateTime)).getD 0

/-- sleep_end_dt (loader.py lines 362-364): dateTime + seconds of the
last coarse event. -/
def coarseEnd (data : List DataEntry) : Int :=
  ((data.getLast?).map (fun d => d.dateTime + d.seconds)).getD 0

/-- sleep_short_data_start_dt (loader.py line 397): dateTime of the
first normalized shortData entry. -/
def shortStartOf (sl : List ShortDataEntry) : Int :=
  (((normalizeShortData sl).head?).map (·.dateTime)).getD 0

/-- sleep_short_data_end_dt (loader.py lines 398-400): dateTime +
seconds of the last normalized shortData entry. -/
def shortEndOf (sl : List ShortDataEntry) : Int :=
  (((normalizeShortData sl).getLast?).map (fun s => s.dateTime + s.seconds)).getD 0

/-- min_sleep_dt (loader.py lines 404-408). -/
def gridStartOf (data : List DataEntry) (sl : List ShortDataEntry) : Int :=
  if coarseStart data < shortStartOf sl then coarseStart data else shortStartOf sl

/-- max_sleep_dt (loader.py lines 409-413). -/
def gridEndOf (data : List DataEntry) (sl : List ShortDataEntry) : Int :=
  if coarseEnd data > shortEndOf sl then coarseEnd data else shortEndOf sl

/-- Number of 30-second grid buckets,
int((max_sleep_dt - min_sleep_dt).total_seconds() / 30) at loader.py
line 418; a negative difference yields an empty range, as in Python. -/
def gridBucketCount (data : List DataEntry) (sl : List ShortDataEntry) : Nat :=
  (gridEndOf data sl - gridStartOf data sl).toNat / 30

/-- The grid index of the merge. -/
def gridTimesOf (data : List DataEntry) (sl : List ShortDataEntry) : List Int :=
  gridTimes (gridStartOf data sl) (gridBucketCount data sl)

/-- Index of the normalized shortData DataFrame (loader.py line 401). -/
def shortTimesOf (sl : List ShortDataEntry) : List Int :=
  (normalizeShortData sl).map (·.dateTime)

/-- The filled and overlaid 30-second grid (loader.py steps 4 and 5). -/
def mergedGrid (data : List DataEntry) (sl : List ShortDataEntry) :
    List (Int × Option Stage) :=
  overlayShort (shortTimesOf sl)
    (ffillLevels none ((gridTimesOf data sl).map (fun t => (t, coarseLevelAt data t))))

/-- _merge_sleep_data_and_sleep_short_data (loader.py lines 325-464).
Control flow of the source, in order:
* shortData key absent: the raw levels.data DataFrame is returned
  unchanged (line 340), with no resampling and no coalescing;
* levels.data empty: line 360 raises KeyError (the empty DataFrame has
  no dateTime column);
* shortData present but empty: line 394 raises KeyError (the empty
  DataFrame built from the normalized list has no dateTime column);
* duplicate coarse dateTime labels: the aligned assignment at lines
  422-424 raises a cannot-reindex ValueError;
* a normalized shortData label missing from the grid index: the .loc
  assignment at lines 429-431 raises KeyError;
* duplicate normalized shortData labels: the same assignment raises a
  duplicate-axis ValueError;
* otherwise the coalesced grid is returned. -/
def mergeSleepDataAndSleepShortData (levels : SleepLevels) :
    Except PandasError (List SleepRow) :=
  match levels.shortData with
  | none => .ok (rawSleepRows levels.data)
  | some shortList =>
    if levels.data = [] then .error .keyError
    else if normalizeShortData shortList = [] then .error .keyError
    else if ¬ (levels.data.map (·.dateTime)).Nodup then .error .valueError
    else if ¬ (∀ t ∈ shortTimesOf shortList, t ∈ gridTimesOf levels.data shortList) then
      .error .keyError
    else if ¬ (shortTimesOf shortList).Nodup then .error .valueError
    else .ok (rleGrid (mergedGrid levels.data shortList))

/-- Sum of the seconds column of a merge output. -/
def sumSeconds (rows : List SleepRow) : Int :=
  (rows.map (·.seconds)).sum

/-- Modelled from the spec (sections 4.1 steps 2 and 4, and section 8
property 7): the 30-second-resampled, run-length-coalesced coarse
sequence alone, which the spec says the merge returns when shortData
is absent or empty.  The span is derived from the coarse events only.
This definition follows the spec's words and exists to be compared
with the source's behaviour. -/
def specCoarseResampleCoalesce (data : List DataEntry) : List SleepRow :=
  match data with
  | [] => []
  | _ :: _ =>
    let n := (coarseEnd data - coarseStart data).toNat / 30
    let times := gridTimes (coarseStart data) n
    rleGrid (ffillLevels none (times.map (fun t => (t, coarseLevelAt data t))))

/-- One row of the DataFrame returned by load_sleep_stage
(loader.py lines 514-560): the merged rows of every matching sleep
document, tagged with the document's logId, with the dateTime column
replaced by isoDate / unixTimestampInMs / timezoneOffsetInMs. -/
structure StageOutRow where
  logId : Int
  level : Option Stage
  seconds : Int
  isoDate : Int
  unixTimestampInMs : Int
  timezoneOffsetInMs : Int
deriving DecidableEq, Repr

/-- The per-document rows of load_sleep_stage (loader.py lines
515-537): the merge output when include_short_data, otherwise the raw
levels.data rows; each row tagged with the document's logId. -/
def sleepEntryRows (e : SleepEntry) (includeShortData : Bool) :
    Except PandasError (List (Int × SleepRow)) :=
  if includeShortData then
    (mergeSleepDataAndSleepShortData e.levels).map
      (fun rows => rows.map (fun r => (e.logId, r)))
  else
    .ok ((rawSleepRows e.levels.data).map (fun r => (e.logId, r)))

/-- load_sleep_stage (loader.py lines 466-560), from fetched documents
onward: merge every document, concatenate, build the datetime columns
(isoDate is the row's dateTime; unixTimestampInMs is its timestamp in
whole milliseconds; timezoneOffsetInMs is 0) and sort ascending by
unixTimestampInMs.  The source sorts with pandas sort_values; an
insertion sort gives the same ascending order (tie order is not relied
upon anywhere). -/
def loadSleepStage (entries : List SleepEntry) (includeShortData : Bool) :
    Except PandasError (List StageOutRow) :=
  match entries.mapM (fun e => sleepEntryRows e includeShortData) with
  | .error err => .error err
  | .ok rowLists =>
    .ok (List.insertionSort (fun a b => a.unixTimestampInMs ≤ b.unixTimestampInMs)
      ((rowLists.flatten).map
        (fun p => ⟨p.1, p.2.level, p.2.seconds, p.2.dateTime, 1000 * p.2.dateTime, 0⟩)))

/-- Sum of the seconds of the load_sleep_stage rows of one log and one
stage. -/
def stageLogSum (rows : List StageOutRow) (lid : Int) (s : Stage) : Int :=
  ((rows.filter (fun r => r.logId == lid && r.level == some s)).map (·.seconds)).sum

/-- The four per-stage duration columns of a sleep summary row
(constants _SLEEP_*_DURATION_IN_MS_COL).  none models an absent column. -/
structure StageDurationCols where
  deepSleepDurationInMs : Option Int
  lightSleepDurationInMs : Option Int
  remSleepInMs : Option Int
  awakeDurationInMs : Option Int
deriving DecidableEq, Repr

/-- Names of the four duration columns. -/
inductive StageCol
  | deepCol
  | lightCol
  | remCol
  | awakeCol
deriving DecidableEq, Repr

/-- stage_value_col_dict (loader.py lines 279-284): the duration column
of each stage. -/
def colOfStage : Stage → StageCol
  | .deep => .deepCol
  | .light => .lightCol
  | .rem => .remCol
  | .wake => .awakeCol

/-- Write one duration column. -/
def setStageCol (m : StageDurationCols) : StageCol → Int → StageDurationCols
  | .deepCol, v => { m with deepSleepDurationInMs := some v }
  | .lightCol, v => { m with lightSleepDurationInMs := some v }
  | .remCol, v => { m with remSleepInMs := some v }
  | .awakeCol, v => { m with awakeDurationInMs := some v }

/-- Read one duration column. -/
def getStageCol (m : StageDurationCols) : StageCol → Option Int
  | .deepCol => m.deepSleepDurationInMs
  | .lightCol => m.lightSleepDurationInMs
  | .remCol => m.remSleepInMs
  | .awakeCol => m.awakeDurationInMs

/-- sleep_stages_duration.loc[s] (loader.py lines 273-277): the
groupby-level sum of the seconds of the merge rows of stage s. -/
def stageDurationSum (rows : List SleepRow) (s : Stage) : Int :=
  ((rows.filter (fun r => r.level = some s)).map (·.seconds)).sum

/-- One iteration of the column loop (loader.py lines 286-292): a stage
present in the groupby index gets its own column set to sum * 1000; an
absent stage sets the deep column to 0 (the source writes
_SLEEP_DEEP_DURATION_IN_MS_COL on that branch whatever the stage is). -/
def summaryStageStep (rows : List SleepRow) (m : StageDurationCols) (s : Stage) :
    StageDurationCols :=
  if rows.filter (fun r => r.level = some s) ≠ [] then
    setStageCol m (colOfStage s) (1000 * stageDurationSum rows s)
  else
    setStageCol m .deepCol 0

/-- The column loop over the stage dict keys in insertion order
deep, light, rem, wake (loader.py lines 279-292). -/
def summaryStageCols (rows : List SleepRow) : StageDurationCols :=
  [Stage.deep, Stage.light, Stage.rem, Stage.wake].foldl
    (summaryStageStep rows) ⟨none, none, none, none⟩

/-- One row of the DataFrame returned by load_sleep_summary
(loader.py lines 164-323): passthrough fields, the datetime columns
(isoDate is the renamed data.startTime) and the four duration columns. -/
structure SummaryOutRow where
  logId : Int
  dateOfSleep : Int
  isoDate : Int
  unixTimestampInMs : Int
  timezoneOffsetInMs : Int
  stageCols : StageDurationCols
deriving DecidableEq, Repr

/-- One document's summary row (loader.py lines 246-292): the merge
runs first; the groupby at line 273 then raises KeyError when the
merge output DataFrame has no level column, which happens exactly when
it is empty (only an empty levels.data with the shortData key absent
reaches that state: the short-wake branch never returns an empty
frame); otherwise the duration columns are derived from the groupby
sums. -/
def summaryEntryRow (e : SleepEntry) : Except PandasError SummaryOutRow :=
  match mergeSleepDataAndSleepShortData e.levels with
  | .error err => .error err
  | .ok rows =>
    if rows = [] then .error .keyError
    else
      .ok ⟨e.logId, e.dateOfSleep, e.startTime, 1000 * e.startTime, 0,
        summaryStageCols rows⟩

/-- load_sleep_summary (loader.py lines 164-323), from fetched
documents onward: one row per document with the merge-derived duration
columns, the startTime column renamed isoDate, unixTimestampInMs its
whole-millisecond timestamp, timezoneOffsetInMs 0, sorted by
dateOfSleep. -/
def loadSleepSummary (entries : List SleepEntry) :
    Except PandasError (List SummaryOutRow) :=
  match entries.mapM summaryEntryRow with
  | .error err => .error err
  | .ok rows => .ok (List.insertionSort (fun a b => a.dateOfSleep ≤ b.dateOfSleep) rows)

/-- One raw document row of a generic metric (load_metric): its start
date value and its other fields, collapsed into one opaque payload. -/
structure MetricEntry where
  dateValue : Int
  payload : Int
deriving DecidableEq, Repr

/-- One output row of load_metric: when the metric has a start-date key
the renamed isoDate column plus unixTimestampInMs / timezoneOffsetInMs;
when it has none those three columns are absent. -/
structure MetricOutRow where
  isoDate : Option Int
  unixTimestampInMs : Option Int
  timezoneOffsetInMs : Option Int
  raw : MetricEntry
deriving DecidableEq, Repr

/-- _setup_datetime_columns (loader.py lines 1339-1354): when the
metric has a non-None start_date_key, the start column is renamed
isoDate, unixTimestampInMs is its whole-millisecond timestamp and
timezoneOffsetInMs is 0; otherwise the rows pass through without those
columns. -/
def setupDatetimeColumns (hasStartDateKey : Bool) (rows : List MetricEntry) :
    List MetricOutRow :=
  if hasStartDateKey then
    rows.map (fun r => ⟨some r.dateValue, some (1000 * r.dateValue), some 0, r⟩)
  else
    rows.map (fun r => ⟨none, none, none, r⟩)

/-- load_metric (loader.py lines 562-634), from fetched documents
onward: sort by the start column when the metric has one, then build
the datetime columns. -/
def loadMetricRows (hasStartDateKey : Bool) (entries : List MetricEntry) :
    List MetricOutRow :=
  setupDatetimeColumns hasStartDateKey
    (if hasStartDateKey then
      List.insertionSort (fun a b => a.dateValue ≤ b.dateValue) entries
    else entries)

/-- compare_dates (utils.py lines 41-45).  The source compares raw
Python values: with both dates None it returns True; with both set it
raises ValueError when end < start; with exactly one None the
comparison None-versus-datetime raises TypeError. -/
def compareDates (s e : Option Int) : Except PandasError Bool :=
  match s, e with
  | none, none => .ok true
  | some sv, some ev => if ev < sv then .error .valueError else .ok true
  | none, some _ => .error .typeError
  | some _, none => .error .typeError

/-- The $match stage built by _get_start_and_end_date_time_filter_dict,
carrying the document keys it compares against. -/
inductive DateFilter
  | both (sKey eKey : Option String) (s e : Int)
  | upTo (eKey : Option String) (e : Int)
  | fromDate (sKey : Option String) (s : Int)
  | all
deriving DecidableEq, Repr

/-- The end-key fallback of _get_start_and_end_date_time_filter_dict
(loader.py lines 1284-1285): a None end key falls back to the start
key. -/
def endKeyOrStart (startKey endKey : Option String) : Option String :=
  match endKey with
  | none => startKey
  | some k => some k

/-- _get_start_and_end_date_time_filter_dict (loader.py lines
1281-1304): both dates set with end < start raises ValueError before
any query is issued; the other three cases build the corresponding
filter. -/
def getStartAndEndDateTimeFilterDict (startKey endKey : Option String)
    (s e : Option Int) : Except PandasError DateFilter :=
  match s, e with
  | some sv, some ev =>
    if ev < sv then .error .valueError
    else .ok (.both startKey (endKeyOrStart startKey endKey) sv ev)
  | none, some ev => .ok (.upTo (endKeyOrStart startKey endKey) ev)
  | some sv, none => .ok (.fromDate startKey sv)
  | none, none => .ok .all

/-- The aggregate query a loader is about to issue: the user id matched
and the date filter stage. -/
structure QueryPlan where
  userId : String
  filter : DateFilter
deriving DecidableEq, Repr

/-- The validation-and-query-building prefix of load_sleep_stage
(loader.py lines 466-512): unknown user raises ValueError; then
compare_dates runs on the converted window; then the date filter is
built on the data.startTime key; only then would the aggregate query be
issued. -/
def loadSleepStageQuery (userIds : List String) (uid : String)
    (s e : Option Int) : Except PandasError QueryPlan :=
  if uid ∈ userIds then
    match compareDates s e with
    | .error err => .error err
    | .ok _ =>
      match getStartAndEndDateTimeFilterDict (some "data.startTime") none s e with
      | .error err => .error err
      | .ok f => .ok ⟨uid, f⟩
  else .error .valueError

/-- The validation-and-query-building prefix of load_sleep_summary
(loader.py lines 200-243): unknown user raises ValueError; no
compare_dates call; the date filter is built on the data.dateOfSleep
key. -/
def loadSleepSummaryQuery (userIds : List String) (uid : String)
    (s e : Option Int) : Except PandasError QueryPlan :=
  if uid ∈ userIds then
    match getStartAndEndDateTimeFilterDict (some "data.dateOfSleep") none s e with
    | .error err => .error err
    | .ok f => .ok ⟨uid, f⟩
  else .error .valueError

/-- The validation-and-query-building prefix of load_metric (loader.py
lines 562-621): unknown user raises ValueError; no compare_dates call;
the date filter is built on the metric's start/end keys from
_METRIC_DICT. -/
def loadMetricQuery (userIds : List String) (uid : String)
    (startKey endKey : Option String) (s e : Option Int) :
    Except PandasError QueryPlan :=
  if uid ∈ userIds then
    match getStartAndEndDateTimeFilterDict startKey endKey s e with
    | .error err => .error err
    | .ok f => .ok ⟨uid, f⟩
  else .error .valueError

/-- The labels of a grid slice are t0, t0 + 30, t0 + 60, ... -/
def TimesFrom : Int → List (Int × Option Stage) → Prop
  | _, [] => True
  | t0, p :: rest => p.1 = t0 ∧ TimesFrom (t0 + 30) rest

theorem gridTimes_succ (t0 : Int) (n : Nat) :
    gridTimes t0 (n + 1) = t0 :: gridTimes (t0 + 30) n := by
  unfold gridTimes
  rw [List.range_succ_eq_map]
  simp only [List.map_cons, List.map_map, Nat.cast_zero, mul_zero, add_zero]
  refine congrArg _ (List.map_congr_left fun i _ => ?_)
  simp only [Function.comp_apply, Nat.cast_succ]
  ring

theorem length_gridTimes (t0 : Int) (n : Nat) : (gridTimes t0 n).length = n := by
  simp [gridTimes]

theorem mem_gridTimes {b t0 : Int} {n : Nat} :
    b ∈ gridTimes t0 n ↔ ∃ i : Nat, i < n ∧ b = t0 + 30 * (i : Int) := by
  simp only [gridTimes, List.mem_map, List.mem_range]
  constructor
  · rintro ⟨i, hi, he⟩
    exact ⟨i, hi, he.symm⟩
  · rintro ⟨i, hi, he⟩
    exact ⟨i, hi, he.symm⟩

theorem timesFrom_gridMap (n : Nat) : ∀ (t0 : Int) (f : Int → Option Stage),
    TimesFrom t0 ((gridTimes t0 n).map (fun t => (t, f t))) := by
  induction n with
  | zero => intro t0 f; simp [gridTimes, TimesFrom]
  | succ m ih =>
    intro t0 f
    rw [gridTimes_succ]
    exact ⟨rfl, ih (t0 + 30) f⟩

theorem timesFrom_ffill : ∀ (g : List (Int × Option Stage)) (c : Option Stage)
    (t0 : Int), TimesFrom t0 g → TimesFrom t0 (ffillLevels c g)
  | [], _, _, _ => trivial
  | (t, some s) :: rest, c, t0, h =>
    ⟨h.1, timesFrom_ffill rest (some s) (t0 + 30) h.2⟩
  | (t, none) :: rest, c, t0, h =>
    ⟨h.1, timesFrom_ffill rest c (t0 + 30) h.2⟩

theorem timesFrom_overlay (st : List Int) :
    ∀ (g : List (Int × Option Stage)) (t0 : Int),
    TimesFrom t0 g → TimesFrom t0 (overlayShort st g)
  | [], _, _ => trivial
  | p :: rest, t0, h => by
    refine ⟨?_, timesFrom_overlay st rest (t0 + 30) h.2⟩
    by_cases hp : p.1 ∈ st
    · simp only [if_pos hp]
      exact h.1
    · simp only [if_neg hp]
      exact h.1

theorem length_ffill : ∀ (g : List (Int × Option Stage)) (c : Option Stage),
    (ffillLevels c g).length = g.length
  | [], _ => rfl
  | (t, some s) :: rest, c => by simp [ffillLevels, length_ffill rest]
  | (t, none) :: rest, c => by simp [ffillLevels, length_ffill rest]

theorem ffill_mem_key : ∀ {g : List (Int × Option Stage)} {c : Option Stage}
    {t : Int} {l : Option Stage}, (t, l) ∈ g → ∃ l2, (t, l2) ∈ ffillLevels c g := by
  intro g
  induction g with
  | nil =>
    intro c t l h
    cases h
  | cons p rest ih =>
    intro c t l h
    rcases p with ⟨tp, lv⟩
    rcases List.mem_cons.mp h with h0 | h1
    · rw [Prod.mk.injEq] at h0
      obtain ⟨rfl, rfl⟩ := h0
      cases l with
      | some s => exact ⟨some s, List.mem_cons_self _ _⟩
      | none => exact ⟨c, List.mem_cons_self _ _⟩
    · cases lv with
      | some s =>
        obtain ⟨l2, hl2⟩ := ih (c := some s) h1
        exact ⟨l2, List.mem_cons_of_mem _ hl2⟩
      | none =>
        obtain ⟨l2, hl2⟩ := ih (c := c) h1
        exact ⟨l2, List.mem_cons_of_mem _ hl2⟩

theorem overlay_mem_wake {st : List Int} {g : List (Int × Option Stage)}
    {t : Int} {l : Option Stage} (hm : (t, l) ∈ g) (ht : t ∈ st) :
    (t, some Stage.wake) ∈ overlayShort st g := by
  have : (if t ∈ st then ((t : Int), some Stage.wake) else (t, l)) ∈ overlayShort st g :=
    List.mem_map_of_mem _ hm
  rwa [if_pos ht] at this

theorem rleAux_sum : ∀ (rest : List (Int × Option Stage)) (s : Int)
    (lv : Option Stage) (lt : Int), TimesFrom (lt + 30) rest →
    sumSeconds (rleAux s lv lt rest) = (lt + 30 - s) + 30 * rest.length
  | [], s, lv, lt, _ => by simp [rleAux, sumSeconds]
  | (t2, l2) :: rest', s, lv, lt, h => by
    obtain ⟨ht2, hrest⟩ := h
    subst ht2
    by_cases hl : l2 = lv
    · rw [rleAux, if_pos hl]
      have := rleAux_sum rest' s lv (lt + 30) hrest
      rw [this]
      simp only [List.length_cons]
      push_cast
      ring
    · rw [rleAux, if_neg hl]
      have := rleAux_sum rest' (lt + 30) l2 (lt + 30) hrest
      simp only [sumSeconds, List.map_cons, List.sum_cons] at this ⊢
      rw [this]
      simp only [List.length_cons]
      push_cast
      ring

theorem rleGrid_sum : ∀ (g : List (Int × Option Stage)) (t0 : Int),
    TimesFrom t0 g → sumSeconds (rleGrid g) = 30 * g.length
  | [], _, _ => by simp [rleGrid, sumSeconds]
  | (t, l) :: rest, t0, h => by
    obtain ⟨ht, hrest⟩ := h
    subst ht
    rw [rleGrid, rleAux_sum rest t l t hrest]
    simp only [List.length_cons]
    push_cast
    ring

theorem rleAux_first : ∀ (rest : List (Int × Option Stage)) (s : Int)
    (lv : Option Stage) (lt : Int),
    ∃ d tl, rleAux s lv lt rest = ⟨s, lv, d⟩ :: tl
  | [], s, lv, lt => ⟨lt + 30 - s, [], rfl⟩
  | (t2, l2) :: rest', s, lv, lt => by
    by_cases hl : l2 = lv
    · obtain ⟨d, tl, h⟩ := rleAux_first rest' s lv t2
      exact ⟨d, tl, by rw [rleAux, if_pos hl, h]⟩
    · exact ⟨lt + 30 - s, rleAux t2 l2 t2 rest', by rw [rleAux, if_neg hl]⟩

theorem rleAux_chain : ∀ (rest : List (Int × Option Stage)) (s : Int)
    (lv : Option Stage) (lt : Int),
    List.Chain' (fun a b : SleepRow => a.level ≠ b.level) (rleAux s lv lt rest)
  | [], s, lv, lt => by simp [rleAux]
  | (t2, l2) :: rest', s, lv, lt => by
    by_cases hl : l2 = lv
    · rw [rleAux, if_pos hl]
      exact rleAux_chain rest' s lv t2
    · rw [rleAux, if_neg hl]
      obtain ⟨d, tl, hfirst⟩ := rleAux_first rest' t2 l2 t2
      rw [hfirst]
      refine List.Chain'.cons ?_ (hfirst ▸ rleAux_chain rest' t2 l2 t2)
      exact fun he => hl he.symm

theorem rleGrid_chain (g : List (Int × Option Stage)) :
    List.Chain' (fun a b : SleepRow => a.level ≠ b.level) (rleGrid g) := by
  cases g with
  | nil => simp [rleGrid]
  | cons p rest => exact rleAux_chain rest p.1 p.2 p.1

theorem rleAux_covers : ∀ (rest : List (Int × Option Stage)) (s : Int)
    (lv : Option Stage) (lt : Int), s ≤ lt → TimesFrom (lt + 30) rest →
    (∀ x : Int, s ≤ x → x < lt + 30 →
      ∃ r ∈ rleAux s lv lt rest, r.level = lv ∧ r.dateTime ≤ x ∧
        x < r.dateTime + r.seconds) ∧
    (∀ p ∈ rest, ∃ r ∈ rleAux s lv lt rest, r.level = p.2 ∧ r.dateTime ≤ p.1 ∧
      p.1 < r.dateTime + r.seconds)
  | [], s, lv, lt, hsl, _ => by
    constructor
    · intro x hx1 hx2
      refine ⟨⟨s, lv, lt + 30 - s⟩, List.mem_singleton.mpr rfl, rfl, hx1, ?_⟩
      show x < s + (lt + 30 - s)
      omega
    · intro p hp
      cases hp
  | (t2, l2) :: rest', s, lv, lt, hsl, h => by
    obtain ⟨ht2, hrest⟩ := h
    subst ht2
    by_cases hl : l2 = lv
    · subst hl
      have ih := rleAux_covers rest' s l2 (lt + 30) (by omega) hrest
      rw [rleAux, if_pos rfl]
      constructor
      · intro x hx1 hx2
        exact ih.1 x hx1 (by omega)
      · intro p hp
        rcases List.mem_cons.mp hp with h0 | h1
        · subst h0
          exact ih.1 (lt + 30) (by omega) (by omega)
        · exact ih.2 p h1
    · have ih := rleAux_covers rest' (lt + 30) l2 (lt + 30) le_rfl hrest
      rw [rleAux, if_neg hl]
      constructor
      · intro x hx1 hx2
        refine ⟨⟨s, lv, lt + 30 - s⟩, List.mem_cons_self _ _, rfl, hx1, ?_⟩
        show x < s + (lt + 30 - s)
        omega
      · intro p hp
        rcases List.mem_cons.mp hp with h0 | h1
        · subst h0
          obtain ⟨r, hr, hrl, hr1, hr2⟩ := ih.1 (lt + 30) le_rfl (by omega)
          exact ⟨r, List.mem_cons_of_mem _ hr, hrl, hr1, hr2⟩
        · obtain ⟨r, hr, hrl, hr1, hr2⟩ := ih.2 p h1
          exact ⟨r, List.mem_cons_of_mem _ hr, hrl, hr1, hr2⟩

theorem rleGrid_covers {g : List (Int × Option Stage)} {t0 b : Int}
    {l : Option Stage} (hg : TimesFrom t0 g) (hm : (b, l) ∈ g) :
    ∃ r ∈ rleGrid g, r.level = l ∧ r.dateTime ≤ b ∧ b < r.dateTime + r.seconds := by
  cases g with
  | nil => cases hm
  | cons p rest =>
    rcases p with ⟨tp, lv⟩
    obtain ⟨hp, hrest⟩ := hg
    simp only at hp
    subst hp
    have hc := rleAux_covers rest tp lv tp le_rfl hrest
    rcases List.mem_cons.mp hm with h0 | h1
    · rw [Prod.mk.injEq] at h0
      obtain ⟨rfl, rfl⟩ := h0
      exact hc.1 b le_rfl (by omega)
    · exact hc.2 (b, l) h1

theorem normalizeShortData_seconds_le {sl : List ShortDataEntry}
    {ne : ShortDataEntry} (h : ne ∈ normalizeShortData sl) : ne.seconds ≤ 30 := by
  rw [normalizeShortData, List.mem_flatMap] at h
  obtain ⟨e, _, he⟩ := h
  rw [normalizeShortEntry] at he
  by_cases h30 : 30 < e.seconds
  · rw [if_pos h30, List.mem_map] at he
    obtain ⟨i, _, hi⟩ := he
    rw [← hi]
  · rw [if_neg h30, List.mem_singleton] at he
    subst he
    show e.seconds ≤ 30
    omega

/-- Inversion of a successful merge on the shortData branch. -/
theorem merge_ok_elim {levels : SleepLevels} {sl : List ShortDataEntry}
    {rows : List SleepRow} (h1 : levels.shortData = some sl)
    (h2 : mergeSleepDataAndSleepShortData levels = .ok rows) :
    levels.data ≠ [] ∧ normalizeShortData sl ≠ [] ∧
    (∀ t ∈ shortTimesOf sl, t ∈ gridTimesOf levels.data sl) ∧
    rows = rleGrid (mergedGrid levels.data sl) := by
  simp only [mergeSleepDataAndSleepShortData, h1] at h2
  split_ifs at h2 with g1 g2 g3 g4 g5
  refine ⟨g1, g2, ?_, (Except.ok.inj h2).symm⟩
  simpa using g4
theorem timesFrom_mergedGrid (data : List DataEntry) (sl : List ShortDataEntry) :
    TimesFrom (gridStartOf data sl) (mergedGrid data sl) := by
  apply timesFrom_overlay
  apply timesFrom_ffill
  exact timesFrom_gridMap _ _ _

theorem length_mergedGrid (data : List DataEntry) (sl : List ShortDataEntry) :
    (mergedGrid data sl).length = gridBucketCount data sl := by
  unfold mergedGrid overlayShort
  rw [List.length_map, length_ffill, List.length_map]
  exact length_gridTimes _ _

/-- C1.  For every coarse sequence and short-wake sequence on which the
merge produces an output, the sum of the output's duration_seconds
equals grid_end - grid_start (grid_start the earlier of the coarse and
normalized short-wake starts, grid_end the later of the two ends, as in
section 4.1 step 1 of the spec), up to at most 29 seconds of trailing
truncation: the dropped partial final bucket. -/
theorem merge_span_coverage (levels : SleepLevels) (sl : List ShortDataEntry)
    (rows : List SleepRow) (h1 : levels.shortData = some sl)
    (h2 : mergeSleepDataAndSleepShortData levels = .ok rows) :
    0 ≤ gridEndOf levels.data sl - gridStartOf levels.data sl - sumSeconds rows ∧
    gridEndOf levels.data sl - gridStartOf levels.data sl - sumSeconds rows ≤ 29 := by
  obtain ⟨hd, hn, hsub, hrows⟩ := merge_ok_elim h1 h2
  have htf := timesFrom_mergedGrid levels.data sl
  have hsum : sumSeconds rows = 30 * ((mergedGrid levels.data sl).length : Int) := by
    rw [hrows]
    exact rleGrid_sum _ _ htf
  rw [length_mergedGrid] at hsum
  have hne2 : gridTimesOf levels.data sl ≠ [] := by
    obtain ⟨e, he⟩ := List.exists_mem_of_ne_nil _ hn
    exact List.ne_nil_of_mem (hsub e.dateTime (List.mem_map_of_mem _ he))
  have hn1 : 1 ≤ gridBucketCount levels.data sl := by
    rcases Nat.eq_zero_or_pos (gridBucketCount levels.data sl) with h0 | h0
    · exact absurd (by unfold gridTimesOf; rw [h0]; rfl) hne2
    · exact h0
  have hdef : gridBucketCount levels.data sl =
      (gridEndOf levels.data sl - gridStartOf levels.data sl).toNat / 30 := rfl
  rw [hsum, hdef]
  rw [hdef] at hn1
  omega

/-- C1 witness: a concrete successful merge covering its span exactly. -/
theorem merge_span_coverage_witness :
    0 ≤ gridEndOf [⟨0, Stage.light, 60⟩] [⟨30, none, 20⟩] -
        gridStartOf [⟨0, Stage.light, 60⟩] [⟨30, none, 20⟩] -
        sumSeconds [⟨0, some Stage.light, 30⟩, ⟨30, some Stage.wake, 30⟩] ∧
    gridEndOf [⟨0, Stage.light, 60⟩] [⟨30, none, 20⟩] -
        gridStartOf [⟨0, Stage.light, 60⟩] [⟨30, none, 20⟩] -
        sumSeconds [⟨0, some Stage.light, 30⟩, ⟨30, some Stage.wake, 30⟩] ≤ 29 :=
  merge_span_coverage ⟨[⟨0, Stage.light, 60⟩], some [⟨30, none, 20⟩]⟩
    [⟨30, none, 20⟩] [⟨0, some Stage.light, 30⟩, ⟨30, some Stage.wake, 30⟩]
    rfl rfl

/-- C2.  On the short-wake branch, no two consecutive merge output
rows carry the same stage label. -/
theorem merge_no_adjacent_duplicates (levels : SleepLevels)
    (sl : List ShortDataEntry) (rows : List SleepRow)
    (h1 : levels.shortData = some sl)
    (h2 : mergeSleepDataAndSleepShortData levels = .ok rows) :
    List.Chain' (fun a b : SleepRow => a.level ≠ b.level) rows := by
  obtain ⟨_, _, _, hrows⟩ := merge_ok_elim h1 h2
  rw [hrows]
  exact rleGrid_chain _

/-- C2 witness: the concrete merge output has no adjacent duplicates. -/
theorem merge_no_adjacent_duplicates_witness :
    List.Chain' (fun a b : SleepRow => a.level ≠ b.level)
      [⟨0, some Stage.light, 30⟩, ⟨30, some Stage.wake, 30⟩] :=
  merge_no_adjacent_duplicates ⟨[⟨0, Stage.light, 60⟩], some [⟨30, none, 20⟩]⟩
    [⟨30, none, 20⟩] [⟨0, some Stage.light, 30⟩, ⟨30, some Stage.wake, 30⟩]
    rfl rfl

/-- C3.  Every 30-second grid bucket covered by a normalized short-wake
entry carries stage wake in the merge output, whatever the coarse stage
at that instant and whatever stage label the short-wake record carries
(the level field of a ShortDataEntry is universally quantified here and
never read by the merge). -/
theorem merge_short_wake_override (levels : SleepLevels)
    (sl : List ShortDataEntry) (rows : List SleepRow) (se : ShortDataEntry)
    (b : Int) (h1 : levels.shortData = some sl)
    (h2 : mergeSleepDataAndSleepShortData levels = .ok rows)
    (hse : se ∈ normalizeShortData sl)
    (hb : b ∈ gridTimesOf levels.data sl)
    (hcov : se.dateTime < b + 30 ∧ b < se.dateTime + se.seconds) :
    ∃ r ∈ rows, r.dateTime ≤ b ∧ b < r.dateTime + r.seconds ∧
      r.level = some Stage.wake := by
  obtain ⟨hd, hn, hsub, hrows⟩ := merge_ok_elim h1 h2
  have hsec := normalizeShortData_seconds_le hse
  have hts : se.dateTime ∈ gridTimesOf levels.data sl :=
    hsub se.dateTime (List.mem_map_of_mem _ hse)
  have hbt : b = se.dateTime := by
    rw [gridTimesOf, mem_gridTimes] at hb hts
    obtain ⟨i, hi, hbi⟩ := hb
    obtain ⟨j, hj, hij⟩ := hts
    omega
  subst hbt
  have hmem : (se.dateTime, some Stage.wake) ∈ mergedGrid levels.data sl := by
    have hbase : (se.dateTime, coarseLevelAt levels.data se.dateTime) ∈
        (gridTimesOf levels.data sl).map (fun t => (t, coarseLevelAt levels.data t)) :=
      List.mem_map_of_mem _ hts
    obtain ⟨l2, hl2⟩ := ffill_mem_key (c := none) hbase
    exact overlay_mem_wake hl2 (List.mem_map_of_mem _ hse)
  obtain ⟨r, hr, hrl, hr1, hr2⟩ :=
    rleGrid_covers (timesFrom_mergedGrid levels.data sl) hmem
  refine ⟨r, ?_, hr1, hr2, hrl⟩
  rw [hrows]
  exact hr

/-- C3 witness: the concrete bucket at second 30 is covered by the
short-wake entry and comes out as wake. -/
theorem merge_short_wake_override_witness :
    ∃ r ∈ [(⟨0, some Stage.light, 30⟩ : SleepRow), ⟨30, some Stage.wake, 30⟩],
      r.dateTime ≤ 30 ∧ (30 : Int) < r.dateTime + r.seconds ∧
      r.level = some Stage.wake :=
  merge_short_wake_override ⟨[⟨0, Stage.light, 60⟩], some [⟨30, none, 20⟩]⟩
    [⟨30, none, 20⟩] [⟨0, some Stage.light, 30⟩, ⟨30, some Stage.wake, 30⟩]
    ⟨30, some Stage.wake, 20⟩ 30 rfl rfl (by decide) (by decide)
    ⟨by decide, by decide⟩

/-- C4 counterexample.  With shortData absent and a coarse sequence of
two contiguous 30-second light events, the merge returns the two raw
rows unchanged, while the 30-second-resampled coalesced coarse sequence
the claim promises is the single 60-second light row; the two differ. -/
theorem merge_no_short_counterexample :
    mergeSleepDataAndSleepShortData
        ⟨[⟨0, Stage.light, 30⟩, ⟨30, Stage.light, 30⟩], none⟩ =
      .ok [⟨0, some Stage.light, 30⟩, ⟨30, some Stage.light, 30⟩] ∧
    specCoarseResampleCoalesce [⟨0, Stage.light, 30⟩, ⟨30, Stage.light, 30⟩] =
      [⟨0, some Stage.light, 60⟩] ∧
    ([⟨0, some Stage.light, 30⟩, ⟨30, some Stage.light, 30⟩] : List SleepRow) ≠
      [⟨0, some Stage.light, 60⟩] :=
  ⟨rfl, rfl, by decide⟩

/-- C4 amended.  When the shortData key is absent the merge returns the
raw coarse rows unchanged: no 30-second resampling and no run-length
coalescing happen (loader.py lines 334-340).  (A present-but-empty
shortData list raises instead of returning the coarse grid.) -/
theorem merge_no_short_returns_raw (levels : SleepLevels)
    (h : levels.shortData = none) :
    mergeSleepDataAndSleepShortData levels = .ok (rawSleepRows levels.data) := by
  simp only [mergeSleepDataAndSleepShortData, h]

/-- C4 witness: the amended behaviour at a concrete input. -/
theorem merge_no_short_returns_raw_witness :
    mergeSleepDataAndSleepShortData ⟨[⟨0, Stage.deep, 45⟩], none⟩ =
      .ok (rawSleepRows [⟨0, Stage.deep, 45⟩]) :=
  merge_no_short_returns_raw ⟨[⟨0, Stage.deep, 45⟩], none⟩ rfl

/-- C8.  A sleep entry whose levels carry the shortData key with an
empty list raises (the guard at loader.py lines 334-339 only detects a
missing key, and line 394 then indexes a column of an empty DataFrame),
while the same entry with the key absent succeeds: the merge is not
total on present-but-empty shortData. -/
theorem merge_empty_short_data_raises :
    mergeSleepDataAndSleepShortData ⟨[⟨0, Stage.light, 60⟩], some []⟩ =
      .error .keyError ∧
    mergeSleepDataAndSleepShortData ⟨[⟨0, Stage.light, 60⟩], none⟩ =
      .ok (rawSleepRows [⟨0, Stage.light, 60⟩]) :=
  ⟨rfl, rfl⟩

/-- C5.  The claim says each per-stage duration column of
load_sleep_summary equals 1000 times that stage's merged-interval
second sum from load_sleep_stage.  At this single-log input the deep
intervals sum to 60 seconds, yet the summary's deep column is 0: the
absent light and rem stages each zero-fill the deep column
(loader.py line 292 writes the deep column on every miss). -/
theorem load_sleep_summary_deep_zero_fill_bug :
    loadSleepSummary [⟨1, 0, 0, ⟨[⟨0, Stage.deep, 60⟩], some [⟨60, none, 30⟩]⟩⟩] =
      .ok [⟨1, 0, 0, 0, 0, ⟨some 0, none, none, some 30000⟩⟩] ∧
    loadSleepStage [⟨1, 0, 0, ⟨[⟨0, Stage.deep, 60⟩], some [⟨60, none, 30⟩]⟩⟩] true =
      .ok [⟨1, some Stage.deep, 60, 0, 0, 0⟩,
           ⟨1, some Stage.wake, 30, 60, 60000, 0⟩] ∧
    1000 * stageLogSum
        [⟨1, some Stage.deep, 60, 0, 0, 0⟩, ⟨1, some Stage.wake, 30, 60, 60000, 0⟩]
        1 Stage.deep = 60000 ∧
    (some (0 : Int) ≠ some (60000 : Int)) :=
  ⟨rfl, rfl, rfl, by decide⟩

/-- C6 counterexample.  At the same single-log input the light stage
has zero merged intervals, and the summary row's light duration column
is absent (none), not present with value 0 as the claim states. -/
theorem summary_absent_column_omitted :
    mergeSleepDataAndSleepShortData ⟨[⟨0, Stage.deep, 60⟩], some [⟨60, none, 30⟩]⟩ =
      .ok [⟨0, some Stage.deep, 60⟩, ⟨60, some Stage.wake, 30⟩] ∧
    ([⟨0, some Stage.deep, 60⟩, ⟨60, some Stage.wake, 30⟩] : List SleepRow).filter
        (fun r => r.level = some Stage.light) = [] ∧
    loadSleepSummary [⟨1, 0, 0, ⟨[⟨0, Stage.deep, 60⟩], some [⟨60, none, 30⟩]⟩⟩] =
      .ok [⟨1, 0, 0, 0, 0, ⟨some 0, none, none, some 30000⟩⟩] ∧
    (⟨some 0, none, none, some 30000⟩ : StageDurationCols).lightSleepDurationInMs ≠
      some 0 :=
  ⟨rfl, by decide, rfl, by decide⟩

theorem getStageCol_setStageCol_ne (m : StageDurationCols) (c c2 : StageCol)
    (v : Int) (h : c2 ≠ c) :
    getStageCol (setStageCol m c v) c2 = getStageCol m c2 := by
  cases c <;> cases c2 <;> first | exact absurd rfl h | rfl

theorem summaryStageStep_absent (rows : List SleepRow) (m : StageDurationCols)
    (s : Stage) (h : rows.filter (fun r => r.level = some s) = []) :
    summaryStageStep rows m s = setStageCol m .deepCol 0 := by
  simp only [summaryStageStep]
  rw [if_neg]
  simp [h]

theorem summaryStageStep_deep_zero (rows : List SleepRow) (m : StageDurationCols)
    (s : Stage) (h : m.deepSleepDurationInMs = some 0) (hs : s ≠ Stage.deep) :
    (summaryStageStep rows m s).deepSleepDurationInMs = some 0 := by
  simp only [summaryStageStep]
  split_ifs
  · cases s with
    | deep => exact absurd rfl hs
    | light => simpa [setStageCol, colOfStage] using h
    | rem => simpa [setStageCol, colOfStage] using h
    | wake => simpa [setStageCol, colOfStage] using h
  · simp [setStageCol]

theorem summaryStageStep_other_col (rows : List SleepRow) (m : StageDurationCols)
    (s t : Stage) (hs : s ≠ Stage.deep) (hts : t ≠ s) :
    getStageCol (summaryStageStep rows m t) (colOfStage s) =
      getStageCol m (colOfStage s) := by
  simp only [summaryStageStep]
  split_ifs
  · apply getStageCol_setStageCol_ne
    cases s <;> cases t <;> first | exact absurd rfl hts | decide
  · apply getStageCol_setStageCol_ne
    cases s with
    | deep => exact absurd rfl hs
    | light => decide
    | rem => decide
    | wake => decide

theorem summaryStageStep_self_absent_col (rows : List SleepRow)
    (m : StageDurationCols) (s : Stage) (hs : s ≠ Stage.deep)
    (h : rows.filter (fun r => r.level = some s) = []) :
    getStageCol (summaryStageStep rows m s) (colOfStage s) =
      getStageCol m (colOfStage s) := by
  rw [summaryStageStep_absent rows m s h]
  apply getStageCol_setStageCol_ne
  cases s with
  | deep => exact absurd rfl hs
  | light => decide
  | rem => decide
  | wake => decide

theorem summaryStageCols_absent (rows : List SleepRow) (s : Stage)
    (h : rows.filter (fun r => r.level = some s) = []) :
    (summaryStageCols rows).deepSleepDurationInMs = some 0 ∧
    (s ≠ Stage.deep → getStageCol (summaryStageCols rows) (colOfStage s) = none) := by
  have e0 : summaryStageCols rows =
      summaryStageStep rows (summaryStageStep rows (summaryStageStep rows
        (summaryStageStep rows ⟨none, none, none, none⟩ Stage.deep) Stage.light)
        Stage.rem) Stage.wake := rfl
  rw [e0]
  cases s with
  | deep =>
    refine ⟨?_, fun hne => absurd rfl hne⟩
    rw [summaryStageStep_absent rows _ _ h]
    apply summaryStageStep_deep_zero _ _ _ ?_ (by decide)
    apply summaryStageStep_deep_zero _ _ _ ?_ (by decide)
    apply summaryStageStep_deep_zero _ _ _ ?_ (by decide)
    rfl
  | light =>
    constructor
    · rw [summaryStageStep_absent rows _ _ h]
      apply summaryStageStep_deep_zero _ _ _ ?_ (by decide)
      apply summaryStageStep_deep_zero _ _ _ ?_ (by decide)
      rfl
    · intro _
      rw [summaryStageStep_other_col rows _ Stage.light Stage.wake (by decide) (by decide),
        summaryStageStep_other_col rows _ Stage.light Stage.rem (by decide) (by decide),
        summaryStageStep_self_absent_col rows _ Stage.light (by decide) h,
        summaryStageStep_other_col rows _ Stage.light Stage.deep (by decide) (by decide)]
      rfl
  | rem =>
    constructor
    · rw [summaryStageStep_absent rows _ _ h]
      apply summaryStageStep_deep_zero _ _ _ ?_ (by decide)
      rfl
    · intro _
      rw [summaryStageStep_other_col rows _ Stage.rem Stage.wake (by decide) (by decide),
        summaryStageStep_self_absent_col rows _ Stage.rem (by decide) h,
        summaryStageStep_other_col rows _ Stage.rem Stage.light (by decide) (by decide),
        summaryStageStep_other_col rows _ Stage.rem Stage.deep (by decide) (by decide)]
      rfl
  | wake =>
    constructor
    · rw [summaryStageStep_absent rows _ _ h]
      simp [setStageCol]
    · intro _
      rw [summaryStageStep_self_absent_col rows _ Stage.wake (by decide) h,
        summaryStageStep_other_col rows _ Stage.wake Stage.rem (by decide) (by decide),
        summaryStageStep_other_col rows _ Stage.wake Stage.light (by decide) (by decide),
        summaryStageStep_other_col rows _ Stage.wake Stage.deep (by decide) (by decide)]
      rfl

/-- C6 amended.  For a log whose merged interval sequence is non-empty
and a stage s with zero merged intervals of stage s, load_sleep_summary
zero-fills the deep duration column (whatever s is), and for s
different from deep the column of s itself is omitted from that log's
row; for a log whose merged interval sequence is empty (an empty
levels.data with shortData absent), load_sleep_summary raises instead
(the groupby at loader.py line 273 finds no level column), producing
no row at all. -/
theorem summary_absent_stage_zero_fills_deep (e : SleepEntry)
    (mrows : List SleepRow) (s : Stage)
    (hm : mergeSleepDataAndSleepShortData e.levels = .ok mrows)
    (habs : mrows.filter (fun r => r.level = some s) = []) :
    (mrows ≠ [] →
      loadSleepSummary [e] =
        .ok [⟨e.logId, e.dateOfSleep, e.startTime, 1000 * e.startTime, 0,
              summaryStageCols mrows⟩] ∧
      (summaryStageCols mrows).deepSleepDurationInMs = some 0 ∧
      (s ≠ Stage.deep →
        getStageCol (summaryStageCols mrows) (colOfStage s) = none)) ∧
    (mrows = [] → loadSleepSummary [e] = .error .keyError) := by
  constructor
  · intro hne
    refine ⟨?_, summaryStageCols_absent mrows s habs⟩
    unfold loadSleepSummary
    have hrow : summaryEntryRow e =
        .ok ⟨e.logId, e.dateOfSleep, e.startTime, 1000 * e.startTime, 0,
          summaryStageCols mrows⟩ := by
      simp only [summaryEntryRow, hm, if_neg hne]
    have hmap : List.mapM summaryEntryRow [e] =
        .ok [⟨e.logId, e.dateOfSleep, e.startTime, 1000 * e.startTime, 0,
          summaryStageCols mrows⟩] := by
      rw [List.mapM_cons, List.mapM_nil, hrow]
      rfl
    rw [hmap]
    rfl
  · intro hnil
    unfold loadSleepSummary
    have hrow : summaryEntryRow e = .error .keyError := by
      simp only [summaryEntryRow, hm, if_pos hnil]
    have hmap : List.mapM summaryEntryRow [e] = .error .keyError := by
      rw [List.mapM_cons, List.mapM_nil, hrow]
      rfl
    rw [hmap]

/-- C6 witness: the amended behaviour at the concrete single-log input,
for the absent light stage (the merged sequence there is non-empty). -/
theorem summary_absent_stage_zero_fills_deep_witness :
    (([⟨0, some Stage.deep, 60⟩, ⟨60, some Stage.wake, 30⟩] : List SleepRow) ≠ [] →
      loadSleepSummary [⟨1, 0, 0, ⟨[⟨0, Stage.deep, 60⟩], some [⟨60, none, 30⟩]⟩⟩] =
        .ok [⟨1, 0, 0, 1000 * 0, 0,
          summaryStageCols [⟨0, some Stage.deep, 60⟩, ⟨60, some Stage.wake, 30⟩]⟩] ∧
      (summaryStageCols
          [⟨0, some Stage.deep, 60⟩,
            ⟨60, some Stage.wake, 30⟩]).deepSleepDurationInMs = some 0 ∧
      (Stage.light ≠ Stage.deep →
        getStageCol
          (summaryStageCols [⟨0, some Stage.deep, 60⟩, ⟨60, some Stage.wake, 30⟩])
          (colOfStage Stage.light) = none)) ∧
    (([⟨0, some Stage.deep, 60⟩, ⟨60, some Stage.wake, 30⟩] : List SleepRow) = [] →
      loadSleepSummary [⟨1, 0, 0, ⟨[⟨0, Stage.deep, 60⟩], some [⟨60, none, 30⟩]⟩⟩] =
        .error .keyError) :=
  summary_absent_stage_zero_fills_deep
    ⟨1, 0, 0, ⟨[⟨0, Stage.deep, 60⟩], some [⟨60, none, 30⟩]⟩⟩
    [⟨0, some Stage.deep, 60⟩, ⟨60, some Stage.wake, 30⟩] Stage.light rfl (by decide)

/-- C7.  For a known participant and both dates set with the end
before the start, load_sleep_stage raises ValueError (compare_dates)
and the generic load_metric path raises ValueError
(_get_start_and_end_date_time_filter_dict), in both cases before the
aggregate query would be issued, so no data is returned. -/
theorem invalid_range_error_before_query (userIds : List String) (uid : String)
    (sv ev : Int) (startKey endKey : Option String)
    (h1 : uid ∈ userIds) (h2 : ev < sv) :
    loadSleepStageQuery userIds uid (some sv) (some ev) = .error .valueError ∧
    loadMetricQuery userIds uid startKey endKey (some sv) (some ev) =
      .error .valueError := by
  constructor
  · simp only [loadSleepStageQuery, if_pos h1, compareDates, if_pos h2]
  · simp only [loadMetricQuery, if_pos h1, getStartAndEndDateTimeFilterDict,
      if_pos h2]

/-- C7 witness: a concrete inverted window. -/
theorem invalid_range_error_before_query_witness :
    loadSleepStageQuery ["a"] "a" (some 5) (some 3) = .error .valueError ∧
    loadMetricQuery ["a"] "a" (some "data.dailySpo2.timestamp") none
      (some 5) (some 3) = .error .valueError :=
  invalid_range_error_before_query ["a"] "a" 5 3
    (some "data.dailySpo2.timestamp") none (List.mem_singleton.mpr rfl)
    (by decide)

/-- C9.  For a known participant, a half-open window (exactly one of
start_date / end_date set) makes load_sleep_stage raise TypeError
(compare_dates compares None against a datetime), while the same
window is accepted by the generic load_metric path and by
load_sleep_summary, which build a one-sided filter and proceed to the
query. -/
theorem half_open_window_type_error (userIds : List String) (uid : String)
    (v : Int) (startKey endKey : Option String) (h1 : uid ∈ userIds) :
    loadSleepStageQuery userIds uid none (some v) = .error .typeError ∧
    loadSleepStageQuery userIds uid (some v) none = .error .typeError ∧
    loadMetricQuery userIds uid startKey endKey none (some v) =
      .ok ⟨uid, .upTo (endKeyOrStart startKey endKey) v⟩ ∧
    loadMetricQuery userIds uid startKey endKey (some v) none =
      .ok ⟨uid, .fromDate startKey v⟩ ∧
    loadSleepSummaryQuery userIds uid none (some v) =
      .ok ⟨uid, .upTo (endKeyOrStart (some "data.dateOfSleep") none) v⟩ ∧
    loadSleepSummaryQuery userIds uid (some v) none =
      .ok ⟨uid, .fromDate (some "data.dateOfSleep") v⟩ := by
  refine ⟨?_, ?_, ?_, ?_, ?_, ?_⟩ <;>
    simp only [loadSleepStageQuery, loadMetricQuery, loadSleepSummaryQuery,
      if_pos h1, compareDates, getStartAndEndDateTimeFilterDict]

/-- C9 witness: a concrete half-open window. -/
theorem half_open_window_type_error_witness :
    loadSleepStageQuery ["a"] "a" none (some 7) = .error .typeError ∧
    loadSleepStageQuery ["a"] "a" (some 7) none = .error .typeError ∧
    loadMetricQuery ["a"] "a" (some "data.dailySpo2.timestamp") none
      none (some 7) =
      .ok ⟨"a", .upTo (endKeyOrStart (some "data.dailySpo2.timestamp") none) 7⟩ ∧
    loadMetricQuery ["a"] "a" (some "data.dailySpo2.timestamp") none
      (some 7) none =
      .ok ⟨"a", .fromDate (some "data.dailySpo2.timestamp") 7⟩ ∧
    loadSleepSummaryQuery ["a"] "a" none (some 7) =
      .ok ⟨"a", .upTo (endKeyOrStart (some "data.dateOfSleep") none) 7⟩ ∧
    loadSleepSummaryQuery ["a"] "a" (some 7) none =
      .ok ⟨"a", .fromDate (some "data.dateOfSleep") 7⟩ :=
  half_open_window_type_error ["a"] "a" 7 (some "data.dailySpo2.timestamp") none
    (List.mem_singleton.mpr rfl)

theorem mapM_except_ok_mem {α β ε : Type} {f : α → Except ε β} :
    ∀ {l : List α} {out : List β}, l.mapM f = .ok out →
      ∀ b ∈ out, ∃ a ∈ l, f a = .ok b := by
  intro l
  induction l with
  | nil =>
    intro out h b hb
    rw [List.mapM_nil] at h
    cases h
    cases hb
  | cons a l2 ih =>
    intro out h b hb
    rw [List.mapM_cons] at h
    cases hfa : f a with
    | error err =>
      rw [hfa] at h
      have h2 : (Except.error err : Except ε (List β)) = .ok out := h
      cases h2
    | ok x =>
      rw [hfa] at h
      cases hml : l2.mapM f with
      | error err =>
        rw [hml] at h
        have h2 : (Except.error err : Except ε (List β)) = .ok out := h
        cases h2
      | ok xs =>
        rw [hml] at h
        have h2 : (Except.ok (x :: xs) : Except ε (List β)) = .ok out := h
        cases h2
        rcases List.mem_cons.mp hb with h0 | h3
        · exact ⟨a, List.mem_cons_self _ _, h0 ▸ hfa⟩
        · obtain ⟨a2, ha2, hfa2⟩ := ih hml b h3
          exact ⟨a2, List.mem_cons_of_mem _ ha2, hfa2⟩

/-- C10.  Every row of a non-empty table returned by load_sleep_stage,
load_sleep_summary, or load_metric for a metric with a start-date key
has timezoneOffsetInMs equal to 0 and unixTimestampInMs equal to the
isoDate timestamp in whole milliseconds since the epoch. -/
theorem datetime_columns_invariant (entries : List SleepEntry)
    (includeShortData : Bool) (outS : List StageOutRow)
    (outM : List SummaryOutRow) (mentries : List MetricEntry)
    (hS : loadSleepStage entries includeShortData = .ok outS)
    (hM : loadSleepSummary entries = .ok outM) :
    (∀ r ∈ outS, r.timezoneOffsetInMs = 0 ∧
      r.unixTimestampInMs = 1000 * r.isoDate) ∧
    (∀ r ∈ outM, r.timezoneOffsetInMs = 0 ∧
      r.unixTimestampInMs = 1000 * r.isoDate) ∧
    (∀ r ∈ loadMetricRows true mentries, r.timezoneOffsetInMs = some 0 ∧
      ∃ d, r.isoDate = some d ∧ r.unixTimestampInMs = some (1000 * d)) := by
  refine ⟨?_, ?_, ?_⟩
  · unfold loadSleepStage at hS
    cases hms : entries.mapM (fun e => sleepEntryRows e includeShortData) with
    | error err =>
      rw [hms] at hS
      cases hS
    | ok rowLists =>
      rw [hms] at hS
      cases hS
      intro r hr
      have hr2 := (List.perm_insertionSort
        (fun a b : StageOutRow => a.unixTimestampInMs ≤ b.unixTimestampInMs)
        _).mem_iff.mp hr
      obtain ⟨p, _, hp⟩ := List.mem_map.mp hr2
      rw [← hp]
      exact ⟨rfl, rfl⟩
  · unfold loadSleepSummary at hM
    cases hms : entries.mapM summaryEntryRow with
    | error err =>
      rw [hms] at hM
      cases hM
    | ok rows =>
      rw [hms] at hM
      cases hM
      intro r hr
      have hr2 := (List.perm_insertionSort
        (fun a b : SummaryOutRow => a.dateOfSleep ≤ b.dateOfSleep) _).mem_iff.mp hr
      obtain ⟨e, _, hfe⟩ := mapM_except_ok_mem hms r hr2
      simp only [summaryEntryRow] at hfe
      cases hme : mergeSleepDataAndSleepShortData e.levels with
      | error err =>
        rw [hme] at hfe
        cases hfe
      | ok mrows =>
        simp only [hme] at hfe
        by_cases hnil : mrows = []
        · rw [if_pos hnil] at hfe
          cases hfe
        · rw [if_neg hnil] at hfe
          cases hfe
          exact ⟨rfl, rfl⟩
  · intro r hr
    unfold loadMetricRows setupDatetimeColumns at hr
    simp only [if_pos] at hr
    obtain ⟨p, _, hp⟩ := List.mem_map.mp hr
    rw [← hp]
    exact ⟨rfl, p.dateValue, rfl, rfl⟩

/-- C10 witness: the datetime-column invariant at a concrete store
content. -/
theorem datetime_columns_invariant_witness :
    (∀ r ∈ [(⟨1, some Stage.deep, 60, 0, 0, 0⟩ : StageOutRow),
        ⟨1, some Stage.wake, 30, 60, 60000, 0⟩], r.timezoneOffsetInMs = 0 ∧
      r.unixTimestampInMs = 1000 * r.isoDate) ∧
    (∀ r ∈ [(⟨1, 0, 0, 0, 0, ⟨some 0, none, none, some 30000⟩⟩ : SummaryOutRow)],
      r.timezoneOffsetInMs = 0 ∧ r.unixTimestampInMs = 1000 * r.isoDate) ∧
    (∀ r ∈ loadMetricRows true [⟨5, 7⟩], r.timezoneOffsetInMs = some 0 ∧
      ∃ d, r.isoDate = some d ∧ r.unixTimestampInMs = some (1000 * d)) :=
  datetime_columns_invariant
    [⟨1, 0, 0, ⟨[⟨0, Stage.deep, 60⟩], some [⟨60, none, 30⟩]⟩⟩] true
    [⟨1, some Stage.deep, 60, 0, 0, 0⟩, ⟨1, some Stage.wake, 30, 60, 60000, 0⟩]
    [⟨1, 0, 0, 0, 0, ⟨some 0, none, none, some 30000⟩⟩] [⟨5, 7⟩] rfl rfl

